import Mathlib

/-!
Verification of the telegram-transfer-service ownership-transfer workflow.

The service (two variants: a 5-step orchestrator and a 3-step orchestrator
with a ledger update) sequences privileged calls against a remote platform
API. We embed the remote API as an oracle (`World`): each field records the
outcome the platform would give to the corresponding remote call. Every
operation of the service is translated to a pure function returning its
result together with the list of remote platform calls it issued, so that
ordering and absence of calls can be stated as trace properties.
-/

namespace TelegramTransfer

/-- Kinds of channel-participant records the platform can return
(mirrors the concrete record classes the source inspects with instanceof). -/
inductive ParticipantKind
  | creator
  | admin
  | selfKind
  | banned
  | leftKind
  | plain
  deriving DecidableEq, Repr

/-- Errors raised by remote platform calls. `userNotParticipant` is the
sentinel the source compares against (error.errorMessage === "USER_NOT_PARTICIPANT"). -/
inductive PlatformError
  | userNotParticipant
  | other (msg : String)
  deriving DecidableEq, Repr

/-- The message carried by a platform error (error.message in the source). -/
def PlatformError.message : PlatformError → String
  | .userNotParticipant => "USER_NOT_PARTICIPANT"
  | .other msg => msg

/-- Result of a remote operation: success or a thrown error.
JS try/catch blocks that rethrow become error propagation. -/
inductive PResult (α : Type) : Type
  | ok (val : α)
  | err (e : PlatformError)
  deriving DecidableEq, Repr

/-- Whether a result is a success (used to state that a call raised). -/
def PResult.isOk {α : Type} : PResult α → Bool
  | .ok _ => true
  | .err _ => false

/-- A channel-participant record: the record's concrete kind and the
user identifier it carries (participant.userId in the source). -/
structure Participant where
  kind : ParticipantKind
  userId : Nat
  deriving DecidableEq, Repr

/-- The constructor-name string the source reports as participantType
(participant.constructor.name). -/
def participantTypeName : ParticipantKind → String
  | .creator => "ChannelParticipantCreator"
  | .admin => "ChannelParticipantAdmin"
  | .selfKind => "ChannelParticipantSelf"
  | .banned => "ChannelParticipantBanned"
  | .leftKind => "ChannelParticipantLeft"
  | .plain => "ChannelParticipant"

/-- Remote calls issued against the platform API or the ledger,
as recorded in traces. -/
inductive Call
  | getParticipant
  | joinChannel
  | getAdmins
  | editAdmin (userId : Nat)
  | getPassword
  | editCreator
  | leaveChannel
  | updateJob
  | selectJob
  | updateListing
  deriving DecidableEq, Repr

/-- Oracle for one orchestration run: the outcome of each remote call the
run may issue. The two GetParticipant invocations (membership gate and
ownership check) are separate fields because each step resolves fresh
state; `editAdminOk` gives the per-admin outcome of EditAdmin. -/
structure World where
  meId : Nat
  channelId : Option String
  channelTitle : String
  gateParticipant : PResult Participant
  joinResult : PResult Unit
  checkParticipant : PResult Participant
  adminsResult : PResult (List Participant)
  editAdminOk : Nat → Bool
  getPasswordOk : PResult Unit
  editCreatorResult : PResult Unit
  leaveResult : PResult Unit

/-- Return value of joinChannelIfNeeded. -/
structure JoinOutcome where
  joined : Bool
  alreadyMember : Bool
  deriving DecidableEq, Repr

/-- Return value of checkChannelOwnership. -/
structure OwnershipResult where
  isOwner : Bool
  currentRole : String
  participantType : String
  channelId : Option String
  channelTitle : String
  deriving DecidableEq, Repr

/-- joinChannelIfNeeded (src/unnamed/part_000 lines 190-254): look up the
escrow's own participant record; on the USER_NOT_PARTICIPANT sentinel issue
a JoinChannel call; on lookup success return alreadyMember true without
joining; any other lookup error is rethrown. -/
def joinChannelIfNeeded (w : World) : PResult JoinOutcome × List Call :=
  match w.gateParticipant with
  | .ok _ => (.ok ⟨true, true⟩, [.getParticipant])
  | .err .userNotParticipant =>
      match w.joinResult with
      | .ok _ => (.ok ⟨true, false⟩, [.getParticipant, .joinChannel])
      | .err e => (.err e, [.getParticipant, .joinChannel])
  | .err e => (.err e, [.getParticipant])

/-- checkChannelOwnership (src/unnamed/part_000 lines 390-449 and
src/index.js lines 174-233, identical logic): fetch the escrow's
participant record, classify its kind; any error (including
USER_NOT_PARTICIPANT) is rethrown by the catch block. -/
def checkChannelOwnership (w : World) : PResult OwnershipResult × List Call :=
  match w.checkParticipant with
  | .err e => (.err e, [.getParticipant])
  | .ok participant =>
      let isCreator : Bool := participant.kind == ParticipantKind.creator
      let isAdmin : Bool := participant.kind == ParticipantKind.admin
      let currentRole : String :=
        if isCreator then "creator" else if isAdmin then "admin" else "member"
      (.ok { isOwner := isCreator
             currentRole := currentRole
             participantType := participantTypeName participant.kind
             channelId := w.channelId
             channelTitle := w.channelTitle }, [.getParticipant])

/-- Loop body of removeAllOtherAdmins: skip creator records and the escrow
itself (the source compares the decimal string forms of the two user ids,
which coincide exactly when the numbers coincide); otherwise issue an
EditAdmin call and, when it succeeds, append the stringified identifier. -/
def revokeFold (meId : Nat) (editOk : Nat → Bool)
    (acc : List String × List Call) (p : Participant) : List String × List Call :=
  if p.kind == ParticipantKind.creator then acc
  else if p.userId == meId then acc
  else
    let calls := acc.2 ++ [Call.editAdmin p.userId]
    if editOk p.userId then (acc.1 ++ [toString p.userId], calls)
    else (acc.1, calls)

/-- removeAllOtherAdmins (src/unnamed/part_000 lines 257-348): list the
admins, revoke each qualifying one, swallowing per-admin failures; the
function returns the identifiers of the successfully revoked admins. -/
def removeAllOtherAdmins (w : World) : PResult (List String) × List Call :=
  match w.adminsResult with
  | .err e => (.err e, [.getAdmins])
  | .ok admins =>
      let r := admins.foldl (revokeFold w.meId w.editAdminOk) ([], [Call.getAdmins])
      (.ok r.1, r.2)

/-- transferChannelOwnership (src/unnamed/part_000 lines 452-505 and
src/index.js lines 236-289): fetch the password configuration and compute
the proof (modelled together as getPassword), then issue EditCreator;
failures at either point are rethrown. -/
def transferChannelOwnership (w : World) : PResult Unit × List Call :=
  match w.getPasswordOk with
  | .err e => (.err e, [.getPassword])
  | .ok _ =>
      match w.editCreatorResult with
      | .ok _ => (.ok (), [.getPassword, .editCreator])
      | .err e => (.err e, [.getPassword, .editCreator])

/-- leaveChannel (src/unnamed/part_000 lines 351-387): issue LeaveChannel;
failures are rethrown. -/
def leaveChannel (w : World) : PResult Unit × List Call :=
  match w.leaveResult with
  | .ok _ => (.ok (), [.leaveChannel])
  | .err e => (.err e, [.leaveChannel])

/-- An incoming transfer request: the shared-secret header and the three
body fields (absent JSON fields are none; JS truthiness also rejects an
empty string). -/
structure TransferRequest where
  apiSecretHeader : Option String
  jobId : Option String
  channelUsername : Option String
  buyerUsername : Option String
  deriving DecidableEq, Repr

/-- JS truthiness of an optional string field: present means defined and
not the empty string. -/
def present : Option String → Bool
  | none => false
  | some s => s != ""

/-- The steps object of a successful 5-step transfer response. -/
structure TransferSteps where
  joined : Bool
  adminsRemoved : Nat
  ownershipTransferred : Bool
  escrowLeft : Bool
  deriving DecidableEq, Repr

/-- Response bodies the service produces (one constructor per JSON shape;
the stack field of 500 bodies is not modelled). -/
inductive ResponseBody
  | unauthorized
  | missingFields (error : String)
  | notReady (error : String) (details : OwnershipResult) (instruction : String)
  | transferSuccess (jobId : String) (message : String) (steps : TransferSteps)
  | transferSuccessV1 (jobId : String) (message : String)
  | serverError (error : String)
  | ownershipBody (result : OwnershipResult)
  | ownershipError (error : String) (isOwner : Bool) (currentRole : String)
  | joinBody (outcome : JoinOutcome)
  | joinError (error : String)
  deriving DecidableEq, Repr

/-- An HTTP response: status code and body. -/
structure Response where
  status : Nat
  body : ResponseBody
  deriving DecidableEq, Repr

/-- The POST /api/transfer-ownership handler of the 5-step variant
(src/unnamed/part_000 lines 118-187), composed with the verifySecret
middleware (lines 37-44). Returns the response and the full trace of
remote calls issued. -/
def transferOwnershipHandler (apiSecret : String) (req : TransferRequest) (w : World) :
    Response × List Call :=
  if req.apiSecretHeader != some apiSecret then
    (⟨401, .unauthorized⟩, [])
  else if !(present req.jobId && present req.channelUsername && present req.buyerUsername) then
    (⟨400, .missingFields "jobId, channelUsername, and buyerUsername are required"⟩, [])
  else
    let jobId := req.jobId.getD ""
    match joinChannelIfNeeded w with
    | (.err e, t1) => (⟨500, .serverError e.message⟩, t1)
    | (.ok _, t1) =>
      match checkChannelOwnership w with
      | (.err e, t2) => (⟨500, .serverError e.message⟩, t1 ++ t2)
      | (.ok ownershipCheck, t2) =>
        if !ownershipCheck.isOwner then
          (⟨400, .notReady "Transfer not ready" ownershipCheck
              "Seller must first transfer channel ownership to escrow account"⟩, t1 ++ t2)
        else
          match removeAllOtherAdmins w with
          | (.err e, t3) => (⟨500, .serverError e.message⟩, t1 ++ t2 ++ t3)
          | (.ok removedAdmins, t3) =>
            match transferChannelOwnership w with
            | (.err e, t4) => (⟨500, .serverError e.message⟩, t1 ++ t2 ++ t3 ++ t4)
            | (.ok _, t4) =>
              match leaveChannel w with
              | (.err e, t5) => (⟨500, .serverError e.message⟩, t1 ++ t2 ++ t3 ++ t4 ++ t5)
              | (.ok _, t5) =>
                (⟨200, .transferSuccess jobId "Ownership transferred successfully"
                    ⟨true, removedAdmins.length, true, true⟩⟩,
                 t1 ++ t2 ++ t3 ++ t4 ++ t5)

/-- The POST /api/check-ownership handler (src/unnamed/part_000 lines
94-115 and src/index.js lines 71-92), composed with verifySecret. -/
def checkOwnershipHandler (apiSecret : String) (secretHeader : Option String)
    (channelUsername : Option String) (w : World) : Response × List Call :=
  if secretHeader != some apiSecret then (⟨401, .unauthorized⟩, [])
  else if !(present channelUsername) then
    (⟨400, .missingFields "channelUsername is required"⟩, [])
  else
    match checkChannelOwnership w with
    | (.ok r, t) => (⟨200, .ownershipBody r⟩, t)
    | (.err e, t) =>
        (⟨500, .ownershipError e.message false ("error: " ++ e.message)⟩, t)

/-- The POST /api/join-channel handler (src/unnamed/part_000 lines 72-91),
composed with verifySecret. -/
def joinChannelHandler (apiSecret : String) (secretHeader : Option String)
    (channelUsername : Option String) (w : World) : Response × List Call :=
  if secretHeader != some apiSecret then (⟨401, .unauthorized⟩, [])
  else if !(present channelUsername) then
    (⟨400, .missingFields "channelUsername is required"⟩, [])
  else
    match joinChannelIfNeeded w with
    | (.ok o, t) => (⟨200, .joinBody o⟩, t)
    | (.err e, t) => (⟨500, .joinError e.message⟩, t)

/-- Ledger oracle for the 3-step variant: the error field of the jobs
update and the listing id (if any) returned by the job lookup. -/
structure Ledger where
  updateJobError : Option String
  jobListing : Option String
  deriving DecidableEq, Repr

/-- The POST /api/transfer-ownership handler of the 3-step variant
(src/index.js lines 95-171), composed with verifySecret. After a
successful handoff the jobs update runs; its error value is only logged
(the source writes it to console.error and continues), then the job row is
looked up and, when present, its listing is marked sold; the 200 success
response is sent regardless of the ledger outcomes. -/
def transferOwnershipHandlerV1 (apiSecret : String) (req : TransferRequest)
    (w : World) (ledger : Ledger) : Response × List Call :=
  if req.apiSecretHeader != some apiSecret then (⟨401, .unauthorized⟩, [])
  else if !(present req.jobId && present req.channelUsername && present req.buyerUsername) then
    (⟨400, .missingFields "jobId, channelUsername, and buyerUsername are required"⟩, [])
  else
    let jobId := req.jobId.getD ""
    match checkChannelOwnership w with
    | (.err e, t1) => (⟨500, .serverError e.message⟩, t1)
    | (.ok ownershipCheck, t1) =>
      if !ownershipCheck.isOwner then
        (⟨400, .notReady "Transfer not ready" ownershipCheck
            "Seller must first transfer channel ownership to admin account"⟩, t1)
      else
        match transferChannelOwnership w with
        | (.err e, t2) => (⟨500, .serverError e.message⟩, t1 ++ t2)
        | (.ok _, t2) =>
          let ledgerCalls :=
            [Call.updateJob, Call.selectJob] ++
              (match ledger.jobListing with
               | some _ => [Call.updateListing]
               | none => [])
          (⟨200, .transferSuccessV1 jobId "Ownership transferred successfully"⟩,
           t1 ++ t2 ++ ledgerCalls)

/-- A participant qualifies for revocation when its record is not a creator
record and its user identifier is not the escrow's own. -/
def qualifiesForRevoke (meId : Nat) (p : Participant) : Bool :=
  !(p.kind == ParticipantKind.creator) && !(p.userId == meId)

/-! ### Helper lemmas -/

theorem foldl_revokeFold (meId : Nat) (editOk : Nat → Bool) (admins : List Participant)
    (acc : List String) (calls : List Call) :
    admins.foldl (revokeFold meId editOk) (acc, calls) =
      (acc ++ (admins.filter fun p => qualifiesForRevoke meId p && editOk p.userId).map
          (fun p => toString p.userId),
       calls ++ (admins.filter (qualifiesForRevoke meId)).map
          fun p => Call.editAdmin p.userId) := by
  induction admins generalizing acc calls with
  | nil => simp
  | cons p rest ih =>
    by_cases hc : p.kind = ParticipantKind.creator
    · simp [revokeFold, qualifiesForRevoke, hc, ih]
    · by_cases hm : p.userId = meId
      · simp [revokeFold, qualifiesForRevoke, hc, hm, ih]
      · by_cases he : editOk p.userId
        · simp [revokeFold, qualifiesForRevoke, hc, hm, he, ih]
        · simp [revokeFold, qualifiesForRevoke, hc, hm, he, ih]

theorem removeAllOtherAdmins_eq (w : World) (admins : List Participant)
    (h : w.adminsResult = PResult.ok admins) :
    removeAllOtherAdmins w =
      (PResult.ok
        ((admins.filter fun p => qualifiesForRevoke w.meId p && w.editAdminOk p.userId).map
          fun p => toString p.userId),
       Call.getAdmins :: (admins.filter (qualifiesForRevoke w.meId)).map
          fun p => Call.editAdmin p.userId) := by
  simp [removeAllOtherAdmins, h, foldl_revokeFold]

theorem join_trace_cases (w : World) :
    ∀ c ∈ (joinChannelIfNeeded w).2, c = Call.getParticipant ∨ c = Call.joinChannel := by
  intro c hc
  rcases hg : w.gateParticipant with p | e
  · simp [joinChannelIfNeeded, hg] at hc; simp [hc]
  · cases e with
    | userNotParticipant =>
        rcases hj : w.joinResult with u | e2 <;>
          simp [joinChannelIfNeeded, hg, hj] at hc <;> tauto
    | other msg => simp [joinChannelIfNeeded, hg] at hc; simp [hc]

theorem check_trace_eq (w : World) :
    (checkChannelOwnership w).2 = [Call.getParticipant] := by
  rcases hc : w.checkParticipant with p | e <;> simp [checkChannelOwnership, hc]

theorem remove_trace_cases (w : World) :
    ∀ c ∈ (removeAllOtherAdmins w).2,
      c = Call.getAdmins ∨ ∃ uid, c = Call.editAdmin uid := by
  intro c hc
  rcases ha : w.adminsResult with admins | e
  · rw [removeAllOtherAdmins_eq w admins ha] at hc
    simp at hc
    rcases hc with hc | ⟨p, _, hc⟩
    · left; exact hc
    · right; exact ⟨p.userId, hc.symm⟩
  · simp [removeAllOtherAdmins, ha] at hc; left; exact hc

theorem transfer_trace_cases (w : World) :
    ∀ c ∈ (transferChannelOwnership w).2,
      c = Call.getPassword ∨ c = Call.editCreator := by
  intro c hc
  rcases hp : w.getPasswordOk with u | e
  · rcases he : w.editCreatorResult with u2 | e2 <;>
      simp [transferChannelOwnership, hp, he] at hc <;> tauto
  · simp [transferChannelOwnership, hp] at hc; simp [hc]

theorem join_no_mutations (w : World) :
    (∀ uid, Call.editAdmin uid ∉ (joinChannelIfNeeded w).2) ∧
    Call.editCreator ∉ (joinChannelIfNeeded w).2 ∧
    Call.leaveChannel ∉ (joinChannelIfNeeded w).2 ∧
    Call.getPassword ∉ (joinChannelIfNeeded w).2 ∧
    Call.getAdmins ∉ (joinChannelIfNeeded w).2 := by
  refine ⟨fun uid hc => ?_, fun hc => ?_, fun hc => ?_, fun hc => ?_, fun hc => ?_⟩ <;>
    rcases join_trace_cases w _ hc with h | h <;> simp at h

theorem remove_no_handoff_calls (w : World) :
    Call.editCreator ∉ (removeAllOtherAdmins w).2 ∧
    Call.leaveChannel ∉ (removeAllOtherAdmins w).2 ∧
    Call.getPassword ∉ (removeAllOtherAdmins w).2 := by
  refine ⟨fun hc => ?_, fun hc => ?_, fun hc => ?_⟩ <;>
    rcases remove_trace_cases w _ hc with h | ⟨uid, h⟩ <;> simp at h

theorem transfer_no_leave (w : World) :
    Call.leaveChannel ∉ (transferChannelOwnership w).2 := by
  intro hc
  rcases transfer_trace_cases w _ hc with h | h <;> simp at h

/-- A LeaveChannel call appears in a transfer run's trace only when the
creator-handoff step returned successfully. -/
theorem leave_requires_handoff (apiSecret : String) (req : TransferRequest) (w : World)
    (h : Call.leaveChannel ∈ (transferOwnershipHandler apiSecret req w).2) :
    (transferChannelOwnership w).1 = PResult.ok () := by
  rcases hJ : joinChannelIfNeeded w with ⟨r1, t1⟩
  rcases hC : checkChannelOwnership w with ⟨r2, t2⟩
  rcases hA : removeAllOtherAdmins w with ⟨r3, t3⟩
  rcases hT : transferChannelOwnership w with ⟨r4, t4⟩
  rcases hL : leaveChannel w with ⟨r5, t5⟩
  have hn1 : Call.leaveChannel ∉ t1 := by
    have := (join_no_mutations w).2.2.1
    rw [hJ] at this
    exact this
  have hn2 : Call.leaveChannel ∉ t2 := by
    have h2 : t2 = [Call.getParticipant] := by
      have := check_trace_eq w
      rw [hC] at this
      exact this
    rw [h2]
    simp
  have hn3 : Call.leaveChannel ∉ t3 := by
    have := (remove_no_handoff_calls w).2.1
    rw [hA] at this
    exact this
  have hn4 : Call.leaveChannel ∉ t4 := by
    have := transfer_no_leave w
    rw [hT] at this
    exact this
  simp only [transferOwnershipHandler, hJ, hC, hA, hT, hL] at h
  by_cases hs : (req.apiSecretHeader != some apiSecret) = true
  · simp [hs] at h
  · simp only [hs] at h
    simp only [Bool.not_eq_true] at hs
    by_cases hf :
        (!(present req.jobId && present req.channelUsername && present req.buyerUsername)) = true
    · simp [hs, hf] at h
    · simp only [Bool.not_eq_true] at hf
      simp only [hs, hf, if_false, Bool.false_eq_true] at h
      cases r1 with
      | err e1 => exact absurd h hn1
      | ok o1 =>
        cases r2 with
        | err e2 =>
          rcases List.mem_append.mp h with hx | hx
          · exact absurd hx hn1
          · exact absurd hx hn2
        | ok o2 =>
          cases ho : o2.isOwner with
          | false =>
            simp only [ho] at h
            rcases List.mem_append.mp h with hx | hx
            · exact absurd hx hn1
            · exact absurd hx hn2
          | true =>
            simp only [ho] at h
            cases r3 with
            | err e3 =>
              rcases List.mem_append.mp h with hx | hx
              · rcases List.mem_append.mp hx with hy | hy
                · exact absurd hy hn1
                · exact absurd hy hn2
              · exact absurd hx hn3
            | ok l3 =>
              cases r4 with
              | err e4 =>
                rcases List.mem_append.mp h with hx | hx
                · rcases List.mem_append.mp hx with hy | hy
                  · rcases List.mem_append.mp hy with hz | hz
                    · exact absurd hz hn1
                    · exact absurd hz hn2
                  · exact absurd hy hn3
                · exact absurd hx hn4
              | ok u4 => rfl

/-! ### Claims about the role classifier -/

/-- C3: the classifier returns isOwner true exactly when the participant
record is a creator record, and maps the record kind to currentRole
creator / admin / member. -/
theorem checkChannelOwnership_classification (w : World) (p : Participant)
    (h : w.checkParticipant = PResult.ok p) :
    ∃ r, (checkChannelOwnership w).1 = PResult.ok r ∧
      (r.isOwner = true ↔ p.kind = ParticipantKind.creator) ∧
      (p.kind = ParticipantKind.creator → r.currentRole = "creator") ∧
      (p.kind = ParticipantKind.admin → r.currentRole = "admin") ∧
      (p.kind ≠ ParticipantKind.creator → p.kind ≠ ParticipantKind.admin →
        r.currentRole = "member") := by
  refine ⟨{ isOwner := p.kind == ParticipantKind.creator
            currentRole := if p.kind == ParticipantKind.creator then "creator"
              else if p.kind == ParticipantKind.admin then "admin" else "member"
            participantType := participantTypeName p.kind
            channelId := w.channelId
            channelTitle := w.channelTitle }, ?_, ?_, ?_, ?_, ?_⟩
  · simp [checkChannelOwnership, h]
  all_goals cases hk : p.kind <;> simp only [hk] <;> decide

/-- Concrete world used for the classifier claims: creator record held by
the escrow identity itself. -/
def worldCreator : World where
  meId := 7
  channelId := some "100"
  channelTitle := "Shop"
  gateParticipant := PResult.ok ⟨ParticipantKind.creator, 7⟩
  joinResult := PResult.ok ()
  checkParticipant := PResult.ok ⟨ParticipantKind.creator, 7⟩
  adminsResult := PResult.ok []
  editAdminOk := fun _ => true
  getPasswordOk := PResult.ok ()
  editCreatorResult := PResult.ok ()
  leaveResult := PResult.ok ()

/-- Witness for C3 at a creator record. -/
theorem checkChannelOwnership_classification_witness :
    ∃ r, (checkChannelOwnership worldCreator).1 = PResult.ok r ∧
      (r.isOwner = true ↔
        (⟨ParticipantKind.creator, 7⟩ : Participant).kind = ParticipantKind.creator) ∧
      ((⟨ParticipantKind.creator, 7⟩ : Participant).kind = ParticipantKind.creator →
        r.currentRole = "creator") ∧
      ((⟨ParticipantKind.creator, 7⟩ : Participant).kind = ParticipantKind.admin →
        r.currentRole = "admin") ∧
      ((⟨ParticipantKind.creator, 7⟩ : Participant).kind ≠ ParticipantKind.creator →
        (⟨ParticipantKind.creator, 7⟩ : Participant).kind ≠ ParticipantKind.admin →
        r.currentRole = "member") :=
  checkChannelOwnership_classification worldCreator ⟨ParticipantKind.creator, 7⟩ rfl

/-- Concrete world where the platform reports the not-a-participant
sentinel on both participant lookups. -/
def worldNotParticipant : World where
  meId := 7
  channelId := some "100"
  channelTitle := "Shop"
  gateParticipant := PResult.err PlatformError.userNotParticipant
  joinResult := PResult.ok ()
  checkParticipant := PResult.err PlatformError.userNotParticipant
  adminsResult := PResult.ok []
  editAdminOk := fun _ => true
  getPasswordOk := PResult.ok ()
  editCreatorResult := PResult.ok ()
  leaveResult := PResult.ok ()

/-- C4 counterexample: at a concrete world where the platform reports the
not-a-participant sentinel, the classifier returns no role result at all
(isOk is false): it propagates the sentinel error instead of mapping it to
a not-participant role. -/
theorem checkChannelOwnership_notParticipant_raises :
    ((checkChannelOwnership worldNotParticipant).1).isOk = false ∧
    (checkChannelOwnership worldNotParticipant).1 =
      PResult.err PlatformError.userNotParticipant :=
  ⟨rfl, rfl⟩

/-- C4 amended: when the escrow identity has no participant record, the
classifier propagates the USER_NOT_PARTICIPANT error to its caller rather
than returning a not-participant role; the check-ownership endpoint then
maps the error to a 500 response whose body carries isOwner false and an
error-prefixed currentRole. -/
theorem checkChannelOwnership_notParticipant_propagates (apiSecret chan : String)
    (w : World) (hchan : chan ≠ "")
    (h : w.checkParticipant = PResult.err PlatformError.userNotParticipant) :
    (checkChannelOwnership w).1 = PResult.err PlatformError.userNotParticipant ∧
    checkOwnershipHandler apiSecret (some apiSecret) (some chan) w =
      (⟨500, .ownershipError "USER_NOT_PARTICIPANT" false "error: USER_NOT_PARTICIPANT"⟩,
       [Call.getParticipant]) := by
  constructor
  · simp [checkChannelOwnership, h]
  · simp [checkOwnershipHandler, present, checkChannelOwnership, h, hchan,
      PlatformError.message]

/-- Witness for the amended C4. -/
theorem checkChannelOwnership_notParticipant_propagates_witness :
    (checkChannelOwnership worldNotParticipant).1 =
      PResult.err PlatformError.userNotParticipant ∧
    checkOwnershipHandler "s" (some "s") (some "shop1") worldNotParticipant =
      (⟨500, .ownershipError "USER_NOT_PARTICIPANT" false "error: USER_NOT_PARTICIPANT"⟩,
       [Call.getParticipant]) :=
  checkChannelOwnership_notParticipant_propagates "s" "shop1" worldNotParticipant
    (by decide) rfl

/-- C9: every non-error classifier result has currentRole creator, admin or
member; the initial unknown value is unreachable, and a record whose kind
is neither creator nor admin (banned, left, self, plain member) is reported
as member. -/
theorem checkChannelOwnership_role_closed (w : World) (r : OwnershipResult)
    (h : (checkChannelOwnership w).1 = PResult.ok r) :
    (r.currentRole = "creator" ∨ r.currentRole = "admin" ∨ r.currentRole = "member") ∧
    r.currentRole ≠ "unknown" ∧
    (∀ p, w.checkParticipant = PResult.ok p →
      p.kind ≠ ParticipantKind.creator → p.kind ≠ ParticipantKind.admin →
      r.currentRole = "member") := by
  rcases hc : w.checkParticipant with p | e
  · simp only [checkChannelOwnership, hc, PResult.ok.injEq] at h
    subst h
    refine ⟨?_, ?_, ?_⟩
    · cases hk : p.kind <;> simp only [hk] <;> decide
    · cases hk : p.kind <;> simp only [hk] <;> decide
    · intro q hq hqc hqa
      simp only [PResult.ok.injEq] at hq
      subst hq
      cases hk : p.kind <;> simp only [hk] at hqc hqa ⊢ <;> first | decide | simp_all
  · simp [checkChannelOwnership, hc] at h

/-- Concrete world where the escrow holds a banned-kind record. -/
def worldBanned : World where
  meId := 7
  channelId := some "100"
  channelTitle := "Shop"
  gateParticipant := PResult.ok ⟨ParticipantKind.banned, 7⟩
  joinResult := PResult.ok ()
  checkParticipant := PResult.ok ⟨ParticipantKind.banned, 7⟩
  adminsResult := PResult.ok []
  editAdminOk := fun _ => true
  getPasswordOk := PResult.ok ()
  editCreatorResult := PResult.ok ()
  leaveResult := PResult.ok ()

/-- Witness for C9 at a banned-kind record: the reported role is member. -/
theorem checkChannelOwnership_role_closed_witness :
    ((checkChannelOwnership worldBanned).1 =
      PResult.ok ⟨false, "member", "ChannelParticipantBanned", some "100", "Shop"⟩) ∧
    ("member" = "creator" ∨ "member" = "admin" ∨ "member" = "member") ∧
    ("member" : String) ≠ "unknown" := by
  refine ⟨rfl, ?_, ?_⟩
  · exact (checkChannelOwnership_role_closed worldBanned
      ⟨false, "member", "ChannelParticipantBanned", some "100", "Shop"⟩ rfl).1
  · exact (checkChannelOwnership_role_closed worldBanned
      ⟨false, "member", "ChannelParticipantBanned", some "100", "Shop"⟩ rfl).2.1

/-! ### Claims about the membership gate and the admin revoker -/

/-- C6: on the not-a-participant sentinel the gate issues exactly one join
call and (when the join call itself succeeds) returns joined true,
alreadyMember false; on lookup success it returns alreadyMember true
without any join call; any other lookup error is propagated. -/
theorem joinChannelIfNeeded_props (w : World) :
    (w.gateParticipant = PResult.err PlatformError.userNotParticipant →
      (joinChannelIfNeeded w).2.count Call.joinChannel = 1 ∧
      (w.joinResult = PResult.ok () →
        (joinChannelIfNeeded w).1 = PResult.ok ⟨true, false⟩)) ∧
    (∀ p, w.gateParticipant = PResult.ok p →
      (joinChannelIfNeeded w).1 = PResult.ok ⟨true, true⟩ ∧
      Call.joinChannel ∉ (joinChannelIfNeeded w).2) ∧
    (∀ msg, w.gateParticipant = PResult.err (PlatformError.other msg) →
      (joinChannelIfNeeded w).1 = PResult.err (PlatformError.other msg)) := by
  refine ⟨fun hg => ⟨?_, fun hj => ?_⟩, fun p hg => ?_, fun msg hg => ?_⟩
  · rcases hj : w.joinResult with u | e <;> simp [joinChannelIfNeeded, hg, hj]
  · simp [joinChannelIfNeeded, hg, hj]
  · simp [joinChannelIfNeeded, hg]
  · simp [joinChannelIfNeeded, hg]

/-- Witness for C6: a not-yet-member world joins once; a member world does
not issue a join call. -/
theorem joinChannelIfNeeded_props_witness :
    ((joinChannelIfNeeded worldNotParticipant).2.count Call.joinChannel = 1 ∧
     (joinChannelIfNeeded worldNotParticipant).1 = PResult.ok ⟨true, false⟩) ∧
    ((joinChannelIfNeeded worldCreator).1 = PResult.ok ⟨true, true⟩ ∧
     Call.joinChannel ∉ (joinChannelIfNeeded worldCreator).2) := by
  constructor
  · have h := (joinChannelIfNeeded_props worldNotParticipant).1 rfl
    exact ⟨h.1, h.2 rfl⟩
  · exact (joinChannelIfNeeded_props worldCreator).2.1
      ⟨ParticipantKind.creator, 7⟩ rfl

/-- C5: the revoker never targets a creator record or the escrow identity;
with every rights-edit succeeding it returns exactly the identifiers of the
qualifying admins; and per-admin failures neither abort the loop nor make
the function fail: the failed identifiers are simply omitted. -/
theorem removeAllOtherAdmins_props (w : World) (admins : List Participant)
    (h : w.adminsResult = PResult.ok admins) :
    (∀ uid, Call.editAdmin uid ∈ (removeAllOtherAdmins w).2 →
      ∃ p, p ∈ admins ∧ p.userId = uid ∧ p.kind ≠ ParticipantKind.creator ∧
        p.userId ≠ w.meId) ∧
    ((∀ p, p ∈ admins → qualifiesForRevoke w.meId p = true →
        w.editAdminOk p.userId = true) →
      (removeAllOtherAdmins w).1 =
        PResult.ok ((admins.filter (qualifiesForRevoke w.meId)).map
          fun p => toString p.userId)) ∧
    (removeAllOtherAdmins w).1 =
      PResult.ok
        ((admins.filter fun p => qualifiesForRevoke w.meId p && w.editAdminOk p.userId).map
          fun p => toString p.userId) := by
  refine ⟨?_, ?_, ?_⟩
  · intro uid hm
    rw [removeAllOtherAdmins_eq w admins h] at hm
    rcases List.mem_cons.mp hm with hm | hm
    · simp at hm
    · rcases List.mem_map.mp hm with ⟨p, hpmem, heq⟩
      rcases List.mem_filter.mp hpmem with ⟨hpad, hq⟩
      refine ⟨p, hpad, ?_, ?_, ?_⟩
      · injection heq
      · intro hk; simp [qualifiesForRevoke, hk] at hq
      · intro hid; simp [qualifiesForRevoke, hid] at hq
  · intro hall
    rw [removeAllOtherAdmins_eq w admins h]
    have hfe : (admins.filter fun p => qualifiesForRevoke w.meId p && w.editAdminOk p.userId)
        = admins.filter (qualifiesForRevoke w.meId) := by
      apply List.filter_congr
      intro p hp
      by_cases hq : qualifiesForRevoke w.meId p = true
      · simp [hq, hall p hp hq]
      · simp only [Bool.not_eq_true] at hq
        simp [hq]
    rw [hfe]
  · rw [removeAllOtherAdmins_eq w admins h]

/-- Admin list used by the C5 witness: the creator record, an admin record
carrying the escrow identity itself, one revocable admin, and one admin
whose rights-edit call fails. -/
def adminsMix : List Participant :=
  [⟨ParticipantKind.creator, 7⟩, ⟨ParticipantKind.admin, 7⟩,
   ⟨ParticipantKind.admin, 21⟩, ⟨ParticipantKind.admin, 22⟩]

/-- Concrete world for the C5 witness: the EditAdmin call for user 22
fails, all others succeed. -/
def worldRevokeMix : World where
  meId := 7
  channelId := some "100"
  channelTitle := "Shop"
  gateParticipant := PResult.ok ⟨ParticipantKind.creator, 7⟩
  joinResult := PResult.ok ()
  checkParticipant := PResult.ok ⟨ParticipantKind.creator, 7⟩
  adminsResult := PResult.ok adminsMix
  editAdminOk := fun uid => !(uid == 22)
  getPasswordOk := PResult.ok ()
  editCreatorResult := PResult.ok ()
  leaveResult := PResult.ok ()

/-- Witness for C5: only users 21 and 22 are targeted, and the failed
revocation of user 22 is omitted from the returned identifiers without an
error. -/
theorem removeAllOtherAdmins_props_witness :
    (∀ uid, Call.editAdmin uid ∈ (removeAllOtherAdmins worldRevokeMix).2 →
      ∃ p, p ∈ adminsMix ∧ p.userId = uid ∧ p.kind ≠ ParticipantKind.creator ∧
        p.userId ≠ worldRevokeMix.meId) ∧
    (removeAllOtherAdmins worldRevokeMix).1 = PResult.ok ["21"] := by
  have h := removeAllOtherAdmins_props worldRevokeMix adminsMix rfl
  exact ⟨h.1, h.2.2⟩

/-! ### Claims about the transfer orchestrator -/

/-- C1: when the ownership check reports that escrow is not the owner, the
orchestrator responds 400 Transfer-not-ready carrying the classifier
result and the instruction, and the run issues no EditAdmin, EditCreator,
LeaveChannel, or password-proof call. -/
theorem transfer_notOwner_halts (apiSecret : String) (req : TransferRequest) (w : World)
    (hsecret : req.apiSecretHeader = some apiSecret)
    (hjob : present req.jobId = true)
    (hchan : present req.channelUsername = true)
    (hbuyer : present req.buyerUsername = true)
    (o : JoinOutcome) (hjoin : (joinChannelIfNeeded w).1 = PResult.ok o)
    (r : OwnershipResult) (hcheck : (checkChannelOwnership w).1 = PResult.ok r)
    (hown : r.isOwner = false) :
    (transferOwnershipHandler apiSecret req w).1 =
      ⟨400, .notReady "Transfer not ready" r
        "Seller must first transfer channel ownership to escrow account"⟩ ∧
    (∀ uid, Call.editAdmin uid ∉ (transferOwnershipHandler apiSecret req w).2) ∧
    Call.editCreator ∉ (transferOwnershipHandler apiSecret req w).2 ∧
    Call.getPassword ∉ (transferOwnershipHandler apiSecret req w).2 ∧
    Call.leaveChannel ∉ (transferOwnershipHandler apiSecret req w).2 := by
  rcases hJ : joinChannelIfNeeded w with ⟨r1, t1⟩
  rw [hJ] at hjoin
  have hr1 : r1 = PResult.ok o := hjoin
  subst hr1
  rcases hC : checkChannelOwnership w with ⟨r2, t2⟩
  rw [hC] at hcheck
  have hr2 : r2 = PResult.ok r := hcheck
  subst hr2
  have ht2 : t2 = [Call.getParticipant] := by
    have hx := check_trace_eq w
    rw [hC] at hx
    exact hx
  have hj1 := join_no_mutations w
  rw [hJ] at hj1
  have hred : transferOwnershipHandler apiSecret req w =
      (⟨400, .notReady "Transfer not ready" r
        "Seller must first transfer channel ownership to escrow account"⟩, t1 ++ t2) := by
    simp [transferOwnershipHandler, hsecret, hjob, hchan, hbuyer, hJ, hC, hown]
  refine ⟨by rw [hred], ?_, ?_, ?_, ?_⟩
  · intro uid
    rw [hred]
    simp only [List.mem_append, ht2]
    rintro (hx | hx)
    · exact hj1.1 uid hx
    · simp at hx
  · rw [hred]
    simp only [List.mem_append, ht2]
    rintro (hx | hx)
    · exact hj1.2.1 hx
    · simp at hx
  · rw [hred]
    simp only [List.mem_append, ht2]
    rintro (hx | hx)
    · exact hj1.2.2.2.1 hx
    · simp at hx
  · rw [hred]
    simp only [List.mem_append, ht2]
    rintro (hx | hx)
    · exact hj1.2.2.1 hx
    · simp at hx

/-- Concrete world for the C1 witness: the escrow is a plain admin, not the
creator. -/
def worldNotOwner : World where
  meId := 7
  channelId := some "100"
  channelTitle := "Shop"
  gateParticipant := PResult.ok ⟨ParticipantKind.admin, 7⟩
  joinResult := PResult.ok ()
  checkParticipant := PResult.ok ⟨ParticipantKind.admin, 7⟩
  adminsResult := PResult.ok []
  editAdminOk := fun _ => true
  getPasswordOk := PResult.ok ()
  editCreatorResult := PResult.ok ()
  leaveResult := PResult.ok ()

/-- A well-formed transfer request used by the orchestrator witnesses. -/
def reqGood : TransferRequest where
  apiSecretHeader := some "s"
  jobId := some "job-1"
  channelUsername := some "shop1"
  buyerUsername := some "buyer1"

/-- Witness for C1. -/
theorem transfer_notOwner_halts_witness :
    (transferOwnershipHandler "s" reqGood worldNotOwner).1 =
      ⟨400, .notReady "Transfer not ready"
        ⟨false, "admin", "ChannelParticipantAdmin", some "100", "Shop"⟩
        "Seller must first transfer channel ownership to escrow account"⟩ ∧
    (∀ uid, Call.editAdmin uid ∉ (transferOwnershipHandler "s" reqGood worldNotOwner).2) ∧
    Call.editCreator ∉ (transferOwnershipHandler "s" reqGood worldNotOwner).2 ∧
    Call.getPassword ∉ (transferOwnershipHandler "s" reqGood worldNotOwner).2 ∧
    Call.leaveChannel ∉ (transferOwnershipHandler "s" reqGood worldNotOwner).2 :=
  transfer_notOwner_halts "s" reqGood worldNotOwner rfl (by decide) (by decide) (by decide)
    ⟨true, true⟩ rfl
    ⟨false, "admin", "ChannelParticipantAdmin", some "100", "Shop"⟩ rfl rfl

/-- C2: if the creator-handoff step fails, the leave step is never invoked
and the run responds 500 carrying the error message; in general a
LeaveChannel call appears in a run's trace only when the handoff returned
successfully. -/
theorem handoff_failure_no_leave (apiSecret : String) (req : TransferRequest) (w : World)
    (hsecret : req.apiSecretHeader = some apiSecret)
    (hjob : present req.jobId = true)
    (hchan : present req.channelUsername = true)
    (hbuyer : present req.buyerUsername = true)
    (o : JoinOutcome) (hjoin : (joinChannelIfNeeded w).1 = PResult.ok o)
    (r : OwnershipResult) (hcheck : (checkChannelOwnership w).1 = PResult.ok r)
    (hown : r.isOwner = true)
    (l : List String) (hadmins : (removeAllOtherAdmins w).1 = PResult.ok l)
    (e : PlatformError) (hfail : (transferChannelOwnership w).1 = PResult.err e) :
    (transferOwnershipHandler apiSecret req w).1 = ⟨500, .serverError e.message⟩ ∧
    Call.leaveChannel ∉ (transferOwnershipHandler apiSecret req w).2 ∧
    (∀ s2 req2 w2, Call.leaveChannel ∈ (transferOwnershipHandler s2 req2 w2).2 →
      (transferChannelOwnership w2).1 = PResult.ok ()) := by
  rcases hJ : joinChannelIfNeeded w with ⟨r1, t1⟩
  rw [hJ] at hjoin
  have hr1 : r1 = PResult.ok o := hjoin
  subst hr1
  rcases hC : checkChannelOwnership w with ⟨r2, t2⟩
  rw [hC] at hcheck
  have hr2 : r2 = PResult.ok r := hcheck
  subst hr2
  rcases hA : removeAllOtherAdmins w with ⟨r3, t3⟩
  rw [hA] at hadmins
  have hr3 : r3 = PResult.ok l := hadmins
  subst hr3
  rcases hT : transferChannelOwnership w with ⟨r4, t4⟩
  rw [hT] at hfail
  have hr4 : r4 = PResult.err e := hfail
  subst hr4
  have ht2 : t2 = [Call.getParticipant] := by
    have hx := check_trace_eq w
    rw [hC] at hx
    exact hx
  have hj1 := join_no_mutations w
  rw [hJ] at hj1
  have hrm := remove_no_handoff_calls w
  rw [hA] at hrm
  have htr := transfer_no_leave w
  rw [hT] at htr
  have hred : transferOwnershipHandler apiSecret req w =
      (⟨500, .serverError e.message⟩, t1 ++ t2 ++ t3 ++ t4) := by
    simp [transferOwnershipHandler, hsecret, hjob, hchan, hbuyer, hJ, hC, hown, hA, hT]
  refine ⟨by rw [hred], ?_, fun s2 req2 w2 hmem => leave_requires_handoff s2 req2 w2 hmem⟩
  rw [hred]
  simp only [List.mem_append, ht2]
  rintro (((hx | hx) | hx) | hx)
  · exact hj1.2.2.1 hx
  · simp at hx
  · exact hrm.2.1 hx
  · exact htr hx

/-- Concrete world for the C2 witness: escrow is creator but the
EditCreator call is rejected. -/
def worldHandoffFail : World where
  meId := 7
  channelId := some "100"
  channelTitle := "Shop"
  gateParticipant := PResult.ok ⟨ParticipantKind.creator, 7⟩
  joinResult := PResult.ok ()
  checkParticipant := PResult.ok ⟨ParticipantKind.creator, 7⟩
  adminsResult := PResult.ok [⟨ParticipantKind.creator, 7⟩, ⟨ParticipantKind.admin, 21⟩]
  editAdminOk := fun _ => true
  getPasswordOk := PResult.ok ()
  editCreatorResult := PResult.err (PlatformError.other "PASSWORD_HASH_INVALID")
  leaveResult := PResult.ok ()

/-- Witness for C2. -/
theorem handoff_failure_no_leave_witness :
    (transferOwnershipHandler "s" reqGood worldHandoffFail).1 =
      ⟨500, .serverError "PASSWORD_HASH_INVALID"⟩ ∧
    Call.leaveChannel ∉ (transferOwnershipHandler "s" reqGood worldHandoffFail).2 ∧
    (∀ s2 req2 w2, Call.leaveChannel ∈ (transferOwnershipHandler s2 req2 w2).2 →
      (transferChannelOwnership w2).1 = PResult.ok ()) :=
  handoff_failure_no_leave "s" reqGood worldHandoffFail rfl (by decide) (by decide)
    (by decide) ⟨true, true⟩ rfl
    ⟨true, "creator", "ChannelParticipantCreator", some "100", "Shop"⟩ rfl rfl
    ["21"] (by decide) (PlatformError.other "PASSWORD_HASH_INVALID") rfl

/-- C7: when all five steps succeed the response is the 200 success body
whose adminsRemoved count is the length of the list returned by the
revocation step. -/
theorem transfer_success_shape (apiSecret : String) (req : TransferRequest) (w : World)
    (hsecret : req.apiSecretHeader = some apiSecret)
    (hjob : present req.jobId = true)
    (hchan : present req.channelUsername = true)
    (hbuyer : present req.buyerUsername = true)
    (o : JoinOutcome) (hjoin : (joinChannelIfNeeded w).1 = PResult.ok o)
    (r : OwnershipResult) (hcheck : (checkChannelOwnership w).1 = PResult.ok r)
    (hown : r.isOwner = true)
    (l : List String) (hadmins : (removeAllOtherAdmins w).1 = PResult.ok l)
    (htrans : (transferChannelOwnership w).1 = PResult.ok ())
    (hleave : (leaveChannel w).1 = PResult.ok ()) :
    (transferOwnershipHandler apiSecret req w).1 =
      ⟨200, .transferSuccess (req.jobId.getD "") "Ownership transferred successfully"
        ⟨true, l.length, true, true⟩⟩ := by
  rcases hJ : joinChannelIfNeeded w with ⟨r1, t1⟩
  rw [hJ] at hjoin
  have hr1 : r1 = PResult.ok o := hjoin
  subst hr1
  rcases hC : checkChannelOwnership w with ⟨r2, t2⟩
  rw [hC] at hcheck
  have hr2 : r2 = PResult.ok r := hcheck
  subst hr2
  rcases hA : removeAllOtherAdmins w with ⟨r3, t3⟩
  rw [hA] at hadmins
  have hr3 : r3 = PResult.ok l := hadmins
  subst hr3
  rcases hT : transferChannelOwnership w with ⟨r4, t4⟩
  rw [hT] at htrans
  have hr4 : r4 = PResult.ok () := htrans
  subst hr4
  rcases hL : leaveChannel w with ⟨r5, t5⟩
  rw [hL] at hleave
  have hr5 : r5 = PResult.ok () := hleave
  subst hr5
  simp [transferOwnershipHandler, hsecret, hjob, hchan, hbuyer, hJ, hC, hown, hA, hT, hL]

/-- Concrete world for the C7 witness: creator escrow, two revocable
admins, every remote call succeeding. -/
def worldOwnerAll : World where
  meId := 7
  channelId := some "100"
  channelTitle := "Shop"
  gateParticipant := PResult.err PlatformError.userNotParticipant
  joinResult := PResult.ok ()
  checkParticipant := PResult.ok ⟨ParticipantKind.creator, 7⟩
  adminsResult := PResult.ok
    [⟨ParticipantKind.creator, 7⟩, ⟨ParticipantKind.admin, 21⟩, ⟨ParticipantKind.admin, 22⟩]
  editAdminOk := fun _ => true
  getPasswordOk := PResult.ok ()
  editCreatorResult := PResult.ok ()
  leaveResult := PResult.ok ()

/-- Witness for C7: the run reports two revoked admins. -/
theorem transfer_success_shape_witness :
    (transferOwnershipHandler "s" reqGood worldOwnerAll).1 =
      ⟨200, .transferSuccess "job-1" "Ownership transferred successfully"
        ⟨true, 2, true, true⟩⟩ :=
  transfer_success_shape "s" reqGood worldOwnerAll rfl (by decide) (by decide) (by decide)
    ⟨true, false⟩ rfl
    ⟨true, "creator", "ChannelParticipantCreator", some "100", "Shop"⟩ rfl rfl
    ["21", "22"] (by decide) rfl rfl

/-- C8: a missing required field makes the transfer endpoint answer 400
with no remote call issued, and a wrong shared-secret header makes every
POST endpoint answer 401 with no remote call issued. -/
theorem auth_validation_short_circuit (apiSecret : String) (req : TransferRequest)
    (header chan : Option String) (w : World) :
    (req.apiSecretHeader ≠ some apiSecret →
      transferOwnershipHandler apiSecret req w = (⟨401, .unauthorized⟩, [])) ∧
    (header ≠ some apiSecret →
      checkOwnershipHandler apiSecret header chan w = (⟨401, .unauthorized⟩, []) ∧
      joinChannelHandler apiSecret header chan w = (⟨401, .unauthorized⟩, [])) ∧
    (req.apiSecretHeader = some apiSecret →
      ¬(present req.jobId = true ∧ present req.channelUsername = true ∧
        present req.buyerUsername = true) →
      transferOwnershipHandler apiSecret req w =
        (⟨400, .missingFields "jobId, channelUsername, and buyerUsername are required"⟩,
         [])) := by
  refine ⟨fun hne => ?_, fun hne => ⟨?_, ?_⟩, fun hsec hne => ?_⟩
  · simp [transferOwnershipHandler, bne_iff_ne, hne]
  · simp [checkOwnershipHandler, bne_iff_ne, hne]
  · simp [joinChannelHandler, bne_iff_ne, hne]
  · have hff : (present req.jobId && present req.channelUsername &&
        present req.buyerUsername) = false := by
      cases hj : present req.jobId <;> cases hc2 : present req.channelUsername <;>
        cases hb : present req.buyerUsername <;> simp_all
    simp [transferOwnershipHandler, hsec, hff]

/-- Witness for C8: a request with the wrong secret gets 401, and a request
with the right secret but an empty jobId gets 400, both with empty traces. -/
theorem auth_validation_short_circuit_witness :
    transferOwnershipHandler "s" ⟨some "wrong", some "job-1", some "shop1", some "buyer1"⟩
      worldCreator = (⟨401, .unauthorized⟩, []) ∧
    checkOwnershipHandler "s" (some "wrong") (some "shop1") worldCreator =
      (⟨401, .unauthorized⟩, []) ∧
    joinChannelHandler "s" (some "wrong") (some "shop1") worldCreator =
      (⟨401, .unauthorized⟩, []) ∧
    transferOwnershipHandler "s" ⟨some "s", some "", some "shop1", some "buyer1"⟩
      worldCreator =
      (⟨400, .missingFields "jobId, channelUsername, and buyerUsername are required"⟩, []) := by
  have h1 := auth_validation_short_circuit "s"
    ⟨some "wrong", some "job-1", some "shop1", some "buyer1"⟩
    (some "wrong") (some "shop1") worldCreator
  have h2 := auth_validation_short_circuit "s"
    ⟨some "s", some "", some "shop1", some "buyer1"⟩
    (some "wrong") (some "shop1") worldCreator
  refine ⟨h1.1 (by decide), (h1.2.1 (by decide)).1, (h1.2.1 (by decide)).2,
    h2.2.2 (by decide) (by decide)⟩

/-- C10: in the 3-step variant, once the handoff has succeeded the endpoint
responds 200 success for every ledger outcome: a failed job update is only
logged and does not change the HTTP response. -/
theorem v1_ledger_error_ignored (apiSecret : String) (req : TransferRequest)
    (w : World) (ledger : Ledger)
    (hsecret : req.apiSecretHeader = some apiSecret)
    (hjob : present req.jobId = true)
    (hchan : present req.channelUsername = true)
    (hbuyer : present req.buyerUsername = true)
    (r : OwnershipResult) (hcheck : (checkChannelOwnership w).1 = PResult.ok r)
    (hown : r.isOwner = true)
    (htrans : (transferChannelOwnership w).1 = PResult.ok ()) :
    (transferOwnershipHandlerV1 apiSecret req w ledger).1 =
      ⟨200, .transferSuccessV1 (req.jobId.getD "") "Ownership transferred successfully"⟩ := by
  rcases hC : checkChannelOwnership w with ⟨r2, t1⟩
  rw [hC] at hcheck
  have hr2 : r2 = PResult.ok r := hcheck
  subst hr2
  rcases hT : transferChannelOwnership w with ⟨r4, t2⟩
  rw [hT] at htrans
  have hr4 : r4 = PResult.ok () := htrans
  subst hr4
  simp [transferOwnershipHandlerV1, hsecret, hjob, hchan, hbuyer, hC, hown, hT]

/-- Witness for C10: a failing jobs update (ledger error present) still
yields the 200 success response. -/
theorem v1_ledger_error_ignored_witness :
    (transferOwnershipHandlerV1 "s" reqGood worldCreator
        ⟨some "connection refused", none⟩).1 =
      ⟨200, .transferSuccessV1 "job-1" "Ownership transferred successfully"⟩ :=
  v1_ledger_error_ignored "s" reqGood worldCreator ⟨some "connection refused", none⟩
    rfl (by decide) (by decide) (by decide)
    ⟨true, "creator", "ChannelParticipantCreator", some "100", "Shop"⟩ rfl rfl rfl

end TelegramTransfer
